import Mathlib

/-!
Verification of `segmentation_dataset_augmentation.py`.

The script scans an image directory, pairs each image with a mask by a
filename convention, applies a fixed list of five Albumentations transforms
to each image/mask pair, and writes the augmented pairs into per-transform
subdirectories, printing warnings and progress lines along the way.

We embed the script shallowly: the file system and the randomized external
transform effects are an explicit environment (`Env`), and the run is a pure
function from the environment to a trace of observable events together with
a final outcome (normal completion or an unhandled exception).
-/

namespace SegAug

/-- A BGR pixel as read by `cv2.imread` (three 8-bit channels). -/
abbrev Pix := Nat × Nat × Nat

/-- A decoded color image: rows of pixels (`cv2.imread` default mode). -/
abbrev Img := List (List Pix)

/-- A decoded grayscale mask: rows of 8-bit values (`cv2.IMREAD_GRAYSCALE`). -/
abbrev Mask := List (List Nat)

/-- Pixel dimensions (height, width) of a raster stored as rows. -/
def dims {α : Type} (r : List (List α)) : Nat × Nat :=
  (r.length, (r.headD []).length)

/-! ### Python string primitives used by the script -/

/-- Helper for `pySplit`: accumulates the current chunk (reversed). -/
def pySplitAux (sep : Char) : List Char → List Char → List (List Char)
  | [], acc => [acc.reverse]
  | c :: cs, acc =>
    if c = sep then acc.reverse :: pySplitAux sep cs []
    else pySplitAux sep cs (c :: acc)

/-- Python `s.split(sep)` for a single-character separator: splits at every
occurrence of `sep`; the result is never empty (`"".split(sep) == [""]`). -/
def pySplit (sep : Char) (s : String) : List String :=
  (pySplitAux sep s.toList []).map (fun cs => String.mk cs)

/-- Python `s[:-n]`: drop the last `n` characters (empty if `len(s) <= n`). -/
def pyDropRight (s : String) (n : Nat) : String :=
  String.mk (s.toList.take (s.toList.length - n))

/-- Python `s.lower().endswith(suffix)` for an ASCII lowercase `suffix`. -/
def pyLowerEndsWith (s suffix : String) : Bool :=
  List.isSuffixOf suffix.toList (s.toList.map Char.toLower)

/-- `os.path.join(a, b)` for the relative paths used by the script. -/
def pyJoin (a b : String) : String := a ++ "/" ++ b

/-! ### Global configuration (source lines 65-73) -/

def IMAGE_DIR : String := "X"
def MASK_DIR : String := "y"
def OUT_IMAGE_ROOT : String := "augmented_x"
def OUT_MASK_ROOT : String := "augmented_y"
def IMAGE_EXTENSION : String := ".jpg"

/-! ### The transform configurations (source lines 85-130)

`cv2.INTER_LINEAR = 1` and `cv2.BORDER_CONSTANT = 0` are inlined as their
numeric values. -/

/-- One Albumentations transform configuration, with the exact constructor
parameters appearing in the script. -/
inductive Transform where
  | RandomBrightnessContrast
      (brightness_limit contrast_limit : ℚ) (brightness_by_max : Bool) (p : ℚ)
  | Defocus (radius : Nat × Nat) (alias_blur : ℚ × ℚ) (p : ℚ)
  | GlassBlur (sigma : ℚ) (max_delta iterations : Nat) (mode : String) (p : ℚ)
  | ISONoise (color_shift intensity : ℚ × ℚ) (p : ℚ)
  | ShiftScaleRotate
      (shift_limit scale_limit : ℚ) (rotate_limit : Nat)
      (interpolation border_mode : Nat) (value mask_value : Nat) (p : ℚ)
  deriving DecidableEq, Repr

/-- `transform.__class__.__name__`. -/
def Transform.name : Transform → String
  | .RandomBrightnessContrast .. => "RandomBrightnessContrast"
  | .Defocus .. => "Defocus"
  | .GlassBlur .. => "GlassBlur"
  | .ISONoise .. => "ISONoise"
  | .ShiftScaleRotate .. => "ShiftScaleRotate"

/-- Whether a transform is the geometric one (warps image and mask) or a
photometric one (alters image intensity only). -/
def Transform.isGeometric : Transform → Bool
  | .ShiftScaleRotate .. => true
  | _ => false

/-- The fixed transform list `TRANSFORMATIONS` of the script. -/
def TRANSFORMATIONS : List Transform :=
  [ .RandomBrightnessContrast 0.35 0.35 true 1.0,
    .Defocus (1, 2) (0.1, 0.15) 1.0,
    .GlassBlur 0.1 1 1 "fast" 1.0,
    .ISONoise (0.02, 0.03) (0.2, 0.3) 1.0,
    .ShiftScaleRotate 0.02 0.2 5 1 0 0 0 1.0 ]

/-! ### Environment: file system and randomized library effects -/

/-- Everything the script observes from outside: the directory listing, the
results of image/mask reads and existence checks, and the randomized pixel
effects of the external Albumentations library (one fresh sample per image
and transform, keyed by name). -/
structure Env where
  /-- `os.listdir(IMAGE_DIR)`. -/
  listing : List String
  /-- `cv2.imread(path)`, keyed by the image path; `none` models a failed
  decode (Python `None`). -/
  decodeImage : String → Option Img
  /-- `os.path.exists(mask_path)`. -/
  maskExists : String → Bool
  /-- `cv2.imread(mask_path, cv2.IMREAD_GRAYSCALE)`; `none` models a failed
  decode of an existing file. -/
  decodeMask : String → Option Mask
  /-- Sampled photometric per-pixel effect of the transform named by the
  first argument, on the image named by the second, at row/column. -/
  photoPix : String → String → Nat → Nat → Pix → Pix
  /-- Sampled spatial warp of `ShiftScaleRotate` for the named image: the
  source coordinate feeding output position (row, col), or `none` when the
  source falls outside the input (constant border). -/
  warpSrc : String → Nat → Nat → Option (Nat × Nat)
  /-- Linear interpolation of the warped image around a source coordinate. -/
  interp : String → Img → Nat → Nat → Pix

/-- Apply a per-position pixel function to every pixel, keeping the shape. -/
def mapPix {α : Type} (f : Nat → Nat → α → α) (r : List (List α)) :
    List (List α) :=
  r.enum.map (fun p => p.2.enum.map (fun q => f p.1 q.1 q.2))

/-- Warp a mask with the sampled spatial map: nearest-neighbor lookup of the
source pixel, constant border fill 0 (`mask_value=0`). Output dimensions
equal the input dimensions. -/
def warpMask (env : Env) (imageName : String) (m : Mask) : Mask :=
  (List.range (dims m).1).map (fun i =>
    (List.range (dims m).2).map (fun j =>
      match env.warpSrc imageName i j with
      | some rc => (m.getD rc.1 []).getD rc.2 0
      | none => 0))

/-- Warp an image with the same sampled spatial map as the mask: linear
interpolation at the source coordinate, constant border fill 0 (`value=0`).
Output dimensions equal the input dimensions. -/
def warpImg (env : Env) (imageName : String) (img : Img) : Img :=
  (List.range (dims img).1).map (fun i =>
    (List.range (dims img).2).map (fun j =>
      match env.warpSrc imageName i j with
      | some rc => env.interp imageName img rc.1 rc.2
      | none => (0, 0, 0)))

/-- Modelled from the spec: the Albumentations call
`transform(image=image, mask=mask)` (external library code, not in `src/`).
Per the spec's transform contract, a photometric transform alters pixel
intensity/color only and passes the mask through unchanged, while the
geometric transform applies the identical sampled spatial warp to both
members, with linear interpolation for the image, nearest-neighbor for the
mask, and constant border fill value 0 for both; the returned pair keeps
the input shapes. -/
def applyTransform (env : Env) (t : Transform) (imageName : String)
    (image : Img) (mask : Mask) : Img × Mask :=
  if t.isGeometric then
    (warpImg env imageName image, warpMask env imageName mask)
  else
    (mapPix (env.photoPix t.name imageName) image, mask)

/-- Modelled from the spec: the image half of the Albumentations call when
the mask target is `None`. The library applies the sampled transform to each
non-`None` target independently and passes a `None` mask through unchanged
(`apply_with_params` guards every target with an `is not None` check), so
the image is augmented exactly as in `applyTransform` while the mask stays
`None`. -/
def applyTransformImage (env : Env) (t : Transform) (imageName : String)
    (image : Img) : Img :=
  if t.isGeometric then warpImg env imageName image
  else mapPix (env.photoPix t.name imageName) image

/-! ### Observable events and outcomes -/

/-- One observable action of the run, in program order. -/
inductive Event where
  /-- A `[WARNING] ...` line printed to standard output. -/
  | warning (msg : String)
  /-- `os.makedirs(path, exist_ok=True)`. -/
  | mkdir (path : String)
  /-- `cv2.imwrite(path, augmented["image"])`. -/
  | writeImage (path : String) (img : Img)
  /-- `cv2.imwrite(path, augmented["mask"])`. -/
  | writeMask (path : String) (m : Mask)
  /-- The progress line `[k/total] Saved -> name`. -/
  | progress (k total : Nat) (name : String)
  deriving DecidableEq, Repr

/-- Result of processing a prefix of the work list: either the next value of
`counter`, or an unhandled Python exception aborting the run. -/
inductive StepRes where
  | ok (counter : Nat)
  | fatal (err : String)
  deriving DecidableEq, Repr

/-- Final outcome of the whole run. -/
inductive Outcome where
  | completed
  | fatal (err : String)
  deriving DecidableEq, Repr

/-- `image_name.split("_")[1].split(".")[0]` (source line 167): `none` models
the `IndexError` raised when the name contains no underscore. -/
def pyBaseId (image_name : String) : Option String :=
  match (pySplit '_' image_name)[1]? with
  | none => none
  | some s => some ((pySplit '.' s).headD "")

/-- The inner `for transform in TRANSFORMATIONS` loop (source lines 177-207)
for one image. The output directories are created before the transform is
applied. If the mask read returned `None`, the transform call succeeds —
Albumentations passes the `None` mask through while still augmenting the
image — so line 203 writes the augmented image file, and only line 204,
`cv2.imwrite(out_mask_path, None)`, raises and aborts the loop: two
`mkdir`s and one image write, no mask write and no progress line. -/
def runTransforms (env : Env) (image_name base_id : String) (image : Img)
    (mask? : Option Mask) (total : Nat) :
    List Transform → Nat → List Event × StepRes
  | [], counter => ([], .ok counter)
  | t :: rest, counter =>
    let transform_name := t.name
    let out_img_dir := pyJoin OUT_IMAGE_ROOT transform_name
    let out_mask_dir := pyJoin OUT_MASK_ROOT transform_name
    match mask? with
    | none =>
      ([.mkdir out_img_dir, .mkdir out_mask_dir,
        .writeImage
          (pyJoin out_img_dir
            (pyDropRight image_name 4 ++ "-" ++ transform_name ++ ".jpg"))
          (applyTransformImage env t image_name image)],
       .fatal "cv2.error: imwrite mask is None")
    | some mask =>
      let augmented := applyTransform env t image_name image mask
      let out_image_path :=
        pyJoin out_img_dir (pyDropRight image_name 4 ++ "-" ++ transform_name ++ ".jpg")
      let out_mask_path :=
        pyJoin out_mask_dir ("mask_" ++ base_id ++ "-" ++ transform_name ++ ".png")
      let evs : List Event :=
        [.mkdir out_img_dir, .mkdir out_mask_dir,
         .writeImage out_image_path augmented.1,
         .writeMask out_mask_path augmented.2,
         .progress counter total transform_name]
      let tail := runTransforms env image_name base_id image mask? total rest (counter + 1)
      (evs ++ tail.1, tail.2)

/-- The body of the outer `for image_name in image_files` loop (source lines
156-207) for one image: read the image (warn and skip on failure), derive the
id (unhandled `IndexError` when there is no underscore), check the mask file
(warn and skip when absent), read the mask and run the transform loop. -/
def processOneImage (env : Env) (total : Nat) (image_name : String)
    (counter : Nat) : List Event × StepRes :=
  let image_path := pyJoin IMAGE_DIR image_name
  match env.decodeImage image_path with
  | none => ([.warning ("[WARNING] Failed to read image: " ++ image_name)], .ok counter)
  | some image =>
    match pyBaseId image_name with
    | none => ([], .fatal "IndexError: list index out of range")
    | some base_id =>
      let mask_name := "mask_" ++ base_id ++ ".png"
      let mask_path := pyJoin MASK_DIR mask_name
      if env.maskExists mask_path then
        runTransforms env image_name base_id image (env.decodeMask mask_path)
          total TRANSFORMATIONS counter
      else
        ([.warning ("[WARNING] Mask not found: " ++ mask_path)], .ok counter)

/-- The outer loop over the discovered images: each image is processed in
turn; a fatal exception terminates the run, otherwise the counter is threaded
to the next image. -/
def runImages (env : Env) (total : Nat) :
    List String → Nat → List Event × Outcome
  | [], _ => ([], .completed)
  | image_name :: rest, counter =>
    match processOneImage env total image_name counter with
    | (evs, .fatal e) => (evs, .fatal e)
    | (evs, .ok c) =>
      let tail := runImages env total rest c
      (evs ++ tail.1, tail.2)

/-- `image_files` (source lines 136-139): listing filtered by a
case-insensitive extension check. -/
def image_files (env : Env) : List String :=
  env.listing.filter (fun f => pyLowerEndsWith f IMAGE_EXTENSION)

def num_images (env : Env) : Nat := (image_files env).length

def num_augs : Nat := TRANSFORMATIONS.length

/-- `total_outputs = num_images * num_augs` (source line 143), computed from
all discovered images before any skip-filtering. -/
def total_outputs (env : Env) : Nat := num_images env * num_augs

/-- The whole run: the counter starts at 1 (source line 154). -/
def run (env : Env) : List Event × Outcome :=
  runImages env (total_outputs env) (image_files env) 1

/-! ### Trace observers -/

/-- Paths of the image files written by a trace, in order. -/
def writeImagePaths (tr : List Event) : List String :=
  tr.filterMap (fun e => match e with | .writeImage p _ => some p | _ => none)

/-- Paths of the mask files written by a trace, in order. -/
def writeMaskPaths (tr : List Event) : List String :=
  tr.filterMap (fun e => match e with | .writeMask p _ => some p | _ => none)

/-- Paths of all files written by a trace (images and masks), in order. -/
def writePaths (tr : List Event) : List String :=
  tr.filterMap (fun e => match e with
    | .writeImage p _ => some p
    | .writeMask p _ => some p
    | _ => none)

/-- The numerators `k` of the progress lines of a trace, in order. -/
def progressKs (tr : List Event) : List Nat :=
  tr.filterMap (fun e => match e with | .progress k _ _ => some k | _ => none)

/-- The denominators `total` of the progress lines of a trace, in order. -/
def progressTotals (tr : List Event) : List Nat :=
  tr.filterMap (fun e => match e with | .progress _ t _ => some t | _ => none)

/-- The transform names of the progress lines of a trace, in order. -/
def progressNames (tr : List Event) : List String :=
  tr.filterMap (fun e => match e with | .progress _ _ n => some n | _ => none)

/-- The warning lines of a trace, in order. -/
def warnings (tr : List Event) : List String :=
  tr.filterMap (fun e => match e with | .warning m => some m | _ => none)

/-- The path of the augmented image written for one image and transform:
`augmented_x/<TransformName>/<image_stem>-<TransformName>.jpg` where the stem
is `image_name[:-4]`. -/
def outImagePath (image_name : String) (t : Transform) : String :=
  pyJoin (pyJoin OUT_IMAGE_ROOT t.name)
    (pyDropRight image_name 4 ++ "-" ++ t.name ++ ".jpg")

/-- The path of the augmented mask written for one id and transform:
`augmented_y/<TransformName>/mask_<id>-<TransformName>.png`. -/
def outMaskPath (base_id : String) (t : Transform) : String :=
  pyJoin (pyJoin OUT_MASK_ROOT t.name)
    ("mask_" ++ base_id ++ "-" ++ t.name ++ ".png")

/-- Whether a step result is an unhandled exception. -/
def StepRes.isFatal : StepRes → Bool
  | .ok _ => false
  | .fatal _ => true

/-! ### Concrete environments for witnesses and counterexamples -/

/-- An empty file system: nothing listed, nothing decodes. -/
def env0 : Env :=
  ⟨[], fun _ => none, fun _ => false, fun _ => none,
   fun _ _ _ _ px => px, fun _ _ _ => none, fun _ _ _ _ => (0, 0, 0)⟩

/-- One well-formed image/mask pair `image_1.jpg` / `mask_1.png`. -/
def envW : Env :=
  ⟨["image_1.jpg"],
   fun p => if p == "X/image_1.jpg" then some [[(1, 2, 3)]] else none,
   fun p => p == "y/mask_1.png",
   fun p => if p == "y/mask_1.png" then some [[7]] else none,
   fun _ _ _ _ px => px, fun _ _ _ => none, fun _ _ _ _ => (0, 0, 0)⟩

/-- `image_1.jpg` decodes and `mask_1.png` exists on disk, but the mask file
does not decode (the grayscale read returns `None`). -/
def envC1 : Env :=
  ⟨["image_1.jpg"],
   fun p => if p == "X/image_1.jpg" then some [[(0, 0, 0)]] else none,
   fun p => p == "y/mask_1.png",
   fun _ => none,
   fun _ _ _ _ px => px, fun _ _ _ => none, fun _ _ _ _ => (0, 0, 0)⟩

/-- Every image decodes, no mask file exists. -/
def envMaskMissing : Env :=
  ⟨["image_1.jpg"],
   fun _ => some [[(0, 0, 0)]],
   fun _ => false, fun _ => none,
   fun _ _ _ _ px => px, fun _ _ _ => none, fun _ _ _ _ => (0, 0, 0)⟩

/-- A single discovered file whose name has no underscore and which fails to
decode. -/
def envC5 : Env :=
  ⟨["image1.jpg"], fun _ => none, fun _ => false, fun _ => none,
   fun _ _ _ _ px => px, fun _ _ _ => none, fun _ _ _ _ => (0, 0, 0)⟩

/-- A single discovered file whose name has no underscore and which decodes
successfully. -/
def envC5W : Env :=
  ⟨["image1.jpg"], fun _ => some [[(0, 0, 0)]], fun _ => false, fun _ => none,
   fun _ _ _ _ px => px, fun _ _ _ => none, fun _ _ _ _ => (0, 0, 0)⟩

/-- First run for the determinism claim: one good pair, identity photometric
effects. -/
def envC8a : Env :=
  ⟨["image_1.jpg"],
   fun p => if p == "X/image_1.jpg" then some [[(1, 2, 3)]] else none,
   fun p => p == "y/mask_1.png",
   fun p => if p == "y/mask_1.png" then some [[7]] else none,
   fun _ _ _ _ px => px, fun _ _ _ => none, fun _ _ _ _ => (0, 0, 0)⟩

/-- Second run for the determinism claim: same files present, but different
pixel contents and a different random sample of every transform. -/
def envC8b : Env :=
  ⟨["image_1.jpg"],
   fun p => if p == "X/image_1.jpg" then some [[(9, 9, 9)]] else none,
   fun p => p == "y/mask_1.png",
   fun p => if p == "y/mask_1.png" then some [[200]] else none,
   fun _ _ _ _ _ => (5, 5, 5), fun _ i j => some (i, j),
   fun _ _ _ _ => (7, 7, 7)⟩

/-- Two distinct image filenames, `image_1.jpg` and `image_1_copy.jpg`, with
the single mask file `mask_1.png`. -/
def envC10 : Env :=
  ⟨["image_1.jpg", "image_1_copy.jpg"],
   fun p => if p == "X/image_1.jpg" || p == "X/image_1_copy.jpg" then
      some [[(0, 0, 0)]] else none,
   fun p => p == "y/mask_1.png",
   fun p => if p == "y/mask_1.png" then some [[0]] else none,
   fun _ _ _ _ px => px, fun _ _ _ => none, fun _ _ _ _ => (0, 0, 0)⟩

/-! ### Dimension lemmas for the transform semantics -/

theorem dims_mapPix {α : Type} (f : Nat → Nat → α → α) (r : List (List α)) :
    dims (mapPix f r) = dims r := by
  cases r with
  | nil => rfl
  | cons row rest =>
    simp [dims, mapPix, List.enum_cons, List.enumFrom_length, List.enum_length]

theorem dims_warpMask (env : Env) (n : String) (m : Mask) :
    dims (warpMask env n m) = dims m := by
  cases m with
  | nil => rfl
  | cons row rest =>
    simp [dims, warpMask, List.range_succ_eq_map]

theorem dims_warpImg (env : Env) (n : String) (img : Img) :
    dims (warpImg env n img) = dims img := by
  cases img with
  | nil => rfl
  | cons row rest =>
    simp [dims, warpImg, List.range_succ_eq_map]

/-! ### Observer lemmas for the inner transform loop -/

theorem runTransforms_fst_writeImagePaths (env : Env) (n b : String)
    (img : Img) (m : Mask) (total : Nat) :
    ∀ (ts : List Transform) (c : Nat),
      writeImagePaths (runTransforms env n b img (some m) total ts c).1 =
        ts.map (outImagePath n)
  | [], _ => rfl
  | t :: rest, c => by
    simp [runTransforms, writeImagePaths, List.filterMap_append, outImagePath]
    exact runTransforms_fst_writeImagePaths env n b img m total rest (c + 1)

theorem runTransforms_fst_writeMaskPaths (env : Env) (n b : String)
    (img : Img) (m : Mask) (total : Nat) :
    ∀ (ts : List Transform) (c : Nat),
      writeMaskPaths (runTransforms env n b img (some m) total ts c).1 =
        ts.map (outMaskPath b)
  | [], _ => rfl
  | t :: rest, c => by
    simp [runTransforms, writeMaskPaths, List.filterMap_append, outMaskPath]
    exact runTransforms_fst_writeMaskPaths env n b img m total rest (c + 1)

theorem runTransforms_fst_writePaths (env : Env) (n b : String)
    (img : Img) (m : Mask) (total : Nat) :
    ∀ (ts : List Transform) (c : Nat),
      writePaths (runTransforms env n b img (some m) total ts c).1 =
        ts.flatMap (fun t => [outImagePath n t, outMaskPath b t])
  | [], _ => rfl
  | t :: rest, c => by
    simp [runTransforms, writePaths, List.filterMap_append, outImagePath,
      outMaskPath]
    exact runTransforms_fst_writePaths env n b img m total rest (c + 1)

theorem runTransforms_fst_progressKs (env : Env) (n b : String)
    (img : Img) (m : Mask) (total : Nat) :
    ∀ (ts : List Transform) (c : Nat),
      progressKs (runTransforms env n b img (some m) total ts c).1 =
        List.range' c ts.length
  | [], _ => rfl
  | t :: rest, c => by
    simp only [List.length_cons, List.range'_succ]
    simp [runTransforms, progressKs, List.filterMap_append]
    exact runTransforms_fst_progressKs env n b img m total rest (c + 1)

theorem runTransforms_fst_progressTotals (env : Env) (n b : String)
    (img : Img) (m : Mask) (total : Nat) :
    ∀ (ts : List Transform) (c : Nat),
      progressTotals (runTransforms env n b img (some m) total ts c).1 =
        List.replicate ts.length total
  | [], _ => rfl
  | t :: rest, c => by
    simp [runTransforms, progressTotals, List.filterMap_append,
      List.replicate_succ]
    exact runTransforms_fst_progressTotals env n b img m total rest (c + 1)

theorem runTransforms_fst_progressNames (env : Env) (n b : String)
    (img : Img) (m : Mask) (total : Nat) :
    ∀ (ts : List Transform) (c : Nat),
      progressNames (runTransforms env n b img (some m) total ts c).1 =
        ts.map Transform.name
  | [], _ => rfl
  | t :: rest, c => by
    simp [runTransforms, progressNames, List.filterMap_append]
    exact runTransforms_fst_progressNames env n b img m total rest (c + 1)

theorem runTransforms_fst_warnings (env : Env) (n b : String)
    (img : Img) (m : Mask) (total : Nat) :
    ∀ (ts : List Transform) (c : Nat),
      warnings (runTransforms env n b img (some m) total ts c).1 = []
  | [], _ => rfl
  | t :: rest, c => by
    have ih := runTransforms_fst_warnings env n b img m total rest (c + 1)
    simp only [warnings] at ih
    simp [runTransforms, warnings, List.filterMap_append,
      -List.filterMap_eq_nil_iff, ih]

theorem runTransforms_snd (env : Env) (n b : String)
    (img : Img) (m : Mask) (total : Nat) :
    ∀ (ts : List Transform) (c : Nat),
      (runTransforms env n b img (some m) total ts c).2 = .ok (c + ts.length)
  | [], _ => rfl
  | t :: rest, c => by
    have := runTransforms_snd env n b img m total rest (c + 1)
    simp [runTransforms, this, Nat.add_comm, Nat.add_assoc, Nat.add_left_comm]

theorem runTransforms_none_eq (env : Env) (n b : String) (img : Img)
    (total : Nat) (t : Transform) (ts : List Transform) (c : Nat) :
    runTransforms env n b img none total (t :: ts) c =
      ([.mkdir (pyJoin OUT_IMAGE_ROOT t.name),
        .mkdir (pyJoin OUT_MASK_ROOT t.name),
        .writeImage (outImagePath n t) (applyTransformImage env t n img)],
       .fatal "cv2.error: imwrite mask is None") := rfl

/-! ### The id extraction fails exactly on delimiter-free names -/

theorem pySplitAux_no_sep (sep : Char) :
    ∀ (cs acc : List Char), sep ∉ cs →
      pySplitAux sep cs acc = [acc.reverse ++ cs]
  | [], acc, _ => by simp [pySplitAux]
  | c :: cs, acc, h => by
    have hc : ¬c = sep := fun hcs => h (hcs ▸ List.mem_cons_self c cs)
    have hcs : sep ∉ cs := fun hm => h (List.mem_cons_of_mem c hm)
    simp [pySplitAux, hc, pySplitAux_no_sep sep cs (c :: acc) hcs]

theorem pyBaseId_no_underscore (name : String) (h : '_' ∉ name.toList) :
    pyBaseId name = none := by
  unfold pyBaseId pySplit
  rw [pySplitAux_no_sep '_' name.toList [] h]
  rfl

/-! ### Observers distribute over trace concatenation -/

theorem writeImagePaths_append (a b : List Event) :
    writeImagePaths (a ++ b) = writeImagePaths a ++ writeImagePaths b := by
  simp [writeImagePaths, List.filterMap_append]

theorem writeMaskPaths_append (a b : List Event) :
    writeMaskPaths (a ++ b) = writeMaskPaths a ++ writeMaskPaths b := by
  simp [writeMaskPaths, List.filterMap_append]

theorem writePaths_append (a b : List Event) :
    writePaths (a ++ b) = writePaths a ++ writePaths b := by
  simp [writePaths, List.filterMap_append]

theorem progressKs_append (a b : List Event) :
    progressKs (a ++ b) = progressKs a ++ progressKs b := by
  simp [progressKs, List.filterMap_append]

theorem progressTotals_append (a b : List Event) :
    progressTotals (a ++ b) = progressTotals a ++ progressTotals b := by
  simp [progressTotals, List.filterMap_append]

/-! ### Shape of the trace of one image and of the whole run -/

/-- Whatever happens to one image — skip, success, or an unhandled
exception — its trace carries `k` consecutive progress numerators starting
at the current counter, one per written mask file (a written image file may
lack its progress line when the run dies at the mask write), all showing
the up-front total; on a non-fatal outcome the counter advances by `k`. -/
theorem processOneImage_shape (env : Env) (total : Nat) (name : String)
    (c : Nat) : ∃ k,
    progressKs (processOneImage env total name c).1 = List.range' c k ∧
    progressTotals (processOneImage env total name c).1 =
      List.replicate k total ∧
    (writeMaskPaths (processOneImage env total name c).1).length = k ∧
    k ≤ (writeImagePaths (processOneImage env total name c).1).length ∧
    ((processOneImage env total name c).2 = .ok (c + k) ∨
      ∃ e, (processOneImage env total name c).2 = .fatal e) := by
  cases hd : env.decodeImage (pyJoin IMAGE_DIR name) with
  | none =>
    refine ⟨0, ?_⟩
    simp [processOneImage, hd, progressKs, progressTotals, writeImagePaths,
      writeMaskPaths]
  | some image =>
    cases hb : pyBaseId name with
    | none =>
      refine ⟨0, ?_⟩
      simp [processOneImage, hd, hb, progressKs, progressTotals,
        writeImagePaths, writeMaskPaths]
    | some base_id =>
      by_cases hex : env.maskExists (pyJoin MASK_DIR ("mask_" ++ base_id ++ ".png"))
      · cases hm : env.decodeMask (pyJoin MASK_DIR ("mask_" ++ base_id ++ ".png")) with
        | none =>
          refine ⟨0, ?_⟩
          simp [processOneImage, hd, hb, hex, hm, TRANSFORMATIONS,
            runTransforms_none_eq, progressKs, progressTotals,
            writeImagePaths, writeMaskPaths]
        | some m =>
          refine ⟨TRANSFORMATIONS.length, ?_⟩
          simp only [processOneImage, hd, hb, hex, hm, if_true]
          simp [runTransforms_fst_progressKs, runTransforms_fst_progressTotals,
            runTransforms_fst_writeImagePaths, runTransforms_fst_writeMaskPaths,
            runTransforms_snd]
      · refine ⟨0, ?_⟩
        simp [processOneImage, hd, hb, hex, progressKs, progressTotals,
          writeImagePaths, writeMaskPaths]

/-- The whole-run composition of `processOneImage_shape`: the progress
numerators of a run segment beginning at counter `c` are consecutive from
`c`, one per written mask file, with at least as many written image files,
and every denominator is the up-front total. -/
theorem runImages_shape (env : Env) (total : Nat) :
    ∀ (names : List String) (c : Nat), ∃ k,
      progressKs (runImages env total names c).1 = List.range' c k ∧
      progressTotals (runImages env total names c).1 =
        List.replicate k total ∧
      (writeMaskPaths (runImages env total names c).1).length = k ∧
      k ≤ (writeImagePaths (runImages env total names c).1).length := by
  intro names
  induction names with
  | nil =>
    intro c
    exact ⟨0, by simp [runImages, progressKs, progressTotals, writeImagePaths,
      writeMaskPaths]⟩
  | cons name rest ih =>
    intro c
    obtain ⟨k1, h1, h2, h3, h4, h5⟩ := processOneImage_shape env total name c
    cases hp : processOneImage env total name c with
    | mk evs res =>
      rw [hp] at h1 h2 h3 h4 h5
      dsimp only at h1 h2 h3 h4 h5
      rcases h5 with h5 | ⟨e, h5⟩
      · subst h5
        obtain ⟨k2, g1, g2, g3, g4⟩ := ih (c + k1)
        refine ⟨k1 + k2, ?_, ?_, ?_, ?_⟩
        · simp only [runImages, hp, progressKs_append, h1, g1]
          have := List.range'_append c k1 k2 1
          simp only [Nat.one_mul] at this
          rw [Nat.add_comm k1 k2]
          exact this
        · simp only [runImages, hp, progressTotals_append, h2, g2]
          exact (List.replicate_add k1 k2 total).symm
        · simp only [runImages, hp, writeMaskPaths_append, List.length_append,
            h3, g3]
        · simp only [runImages, hp, writeImagePaths_append, List.length_append]
          exact Nat.add_le_add h4 g4
      · subst h5
        refine ⟨k1, ?_, ?_, ?_, ?_⟩
        · simp only [runImages, hp]
          exact h1
        · simp only [runImages, hp]
          exact h2
        · simp only [runImages, hp]
          exact h3
        · simp only [runImages, hp]
          exact h4

/-! ### Determinism of the written paths -/

/-- The written paths and the fatality of one image's processing depend only
on the image name and on which reads succeed — not on pixel contents, random
samples, counters or totals. -/
theorem processOneImage_paths_det (env1 env2 : Env) (total1 total2 : Nat)
    (name : String) (c1 c2 : Nat)
    (hdec : ∀ p, (env1.decodeImage p).isSome = (env2.decodeImage p).isSome)
    (hex : ∀ p, env1.maskExists p = env2.maskExists p)
    (hmask : ∀ p, (env1.decodeMask p).isSome = (env2.decodeMask p).isSome) :
    writePaths (processOneImage env1 total1 name c1).1 =
      writePaths (processOneImage env2 total2 name c2).1 ∧
    (processOneImage env1 total1 name c1).2.isFatal =
      (processOneImage env2 total2 name c2).2.isFatal := by
  have hd := hdec (pyJoin IMAGE_DIR name)
  cases h1 : env1.decodeImage (pyJoin IMAGE_DIR name) with
  | none =>
    cases h2 : env2.decodeImage (pyJoin IMAGE_DIR name) with
    | none =>
      constructor <;>
        simp [processOneImage, h1, h2, writePaths, StepRes.isFatal]
    | some img2 =>
      rw [h1, h2] at hd
      simp at hd
  | some img1 =>
    cases h2 : env2.decodeImage (pyJoin IMAGE_DIR name) with
    | none =>
      rw [h1, h2] at hd
      simp at hd
    | some img2 =>
      cases hb : pyBaseId name with
      | none =>
        constructor <;>
          simp [processOneImage, h1, h2, hb, writePaths, StepRes.isFatal]
      | some bid =>
        have he := hex (pyJoin MASK_DIR ("mask_" ++ bid ++ ".png"))
        have hm := hmask (pyJoin MASK_DIR ("mask_" ++ bid ++ ".png"))
        by_cases hmex : env1.maskExists (pyJoin MASK_DIR ("mask_" ++ bid ++ ".png")) = true
        · have hmex2 : env2.maskExists (pyJoin MASK_DIR ("mask_" ++ bid ++ ".png")) = true := by
            rw [← he]
            exact hmex
          cases hm1 : env1.decodeMask (pyJoin MASK_DIR ("mask_" ++ bid ++ ".png")) with
          | none =>
            cases hm2 : env2.decodeMask (pyJoin MASK_DIR ("mask_" ++ bid ++ ".png")) with
            | none =>
              constructor <;>
                simp [processOneImage, h1, h2, hb, hmex, hmex2, hm1, hm2,
                  TRANSFORMATIONS, runTransforms_none_eq, writePaths,
                  StepRes.isFatal]
            | some m2 =>
              rw [hm1, hm2] at hm
              simp at hm
          | some m1 =>
            cases hm2 : env2.decodeMask (pyJoin MASK_DIR ("mask_" ++ bid ++ ".png")) with
            | none =>
              rw [hm1, hm2] at hm
              simp at hm
            | some m2 =>
              constructor
              · simp only [processOneImage, h1, h2, hb, hmex, hmex2, hm1, hm2,
                  if_true]
                rw [runTransforms_fst_writePaths, runTransforms_fst_writePaths]
              · simp only [processOneImage, h1, h2, hb, hmex, hmex2, hm1, hm2,
                  if_true]
                rw [runTransforms_snd, runTransforms_snd]
                rfl
        · have hmex2 : ¬env2.maskExists (pyJoin MASK_DIR ("mask_" ++ bid ++ ".png")) = true := by
            rw [← he]
            exact hmex
          constructor <;>
            simp [processOneImage, h1, h2, hb, hmex, hmex2, writePaths,
              StepRes.isFatal]

/-- Whole-run version of `processOneImage_paths_det`. -/
theorem runImages_paths_det (env1 env2 : Env) (total1 total2 : Nat)
    (hdec : ∀ p, (env1.decodeImage p).isSome = (env2.decodeImage p).isSome)
    (hex : ∀ p, env1.maskExists p = env2.maskExists p)
    (hmask : ∀ p, (env1.decodeMask p).isSome = (env2.decodeMask p).isSome) :
    ∀ (names : List String) (c1 c2 : Nat),
      writePaths (runImages env1 total1 names c1).1 =
        writePaths (runImages env2 total2 names c2).1 := by
  intro names
  induction names with
  | nil => intro c1 c2; rfl
  | cons name rest ih =>
    intro c1 c2
    obtain ⟨hw, hf⟩ :=
      processOneImage_paths_det env1 env2 total1 total2 name c1 c2 hdec hex hmask
    cases hp1 : processOneImage env1 total1 name c1 with
    | mk evs1 res1 =>
      cases hp2 : processOneImage env2 total2 name c2 with
      | mk evs2 res2 =>
        rw [hp1, hp2] at hw hf
        dsimp only at hw hf
        cases res1 with
        | ok c1' =>
          cases res2 with
          | ok c2' =>
            simp only [runImages, hp1, hp2, writePaths_append, hw, ih c1' c2']
          | fatal e2 => simp [StepRes.isFatal] at hf
        | fatal e1 =>
          cases res2 with
          | ok c2' => simp [StepRes.isFatal] at hf
          | fatal e2 => simp only [runImages, hp1, hp2, hw]

/-! ### The claims -/

/-- C1 (amended): for every discovered image that decodes successfully,
whose expected mask file exists, and whose mask file also decodes
successfully, the pipeline writes exactly `num_transforms` (5) image output
files and exactly 5 mask output files, one per transform subdirectory, at
paths `augmented_x/<TransformName>/<image_stem>-<TransformName>.jpg` and
`augmented_y/<TransformName>/mask_<id>-<TransformName>.png`, and processing
continues with the counter advanced by 5. -/
theorem C1_five_outputs_per_pair (env : Env) (total c : Nat)
    (name bid : String) (img : Img) (m : Mask)
    (hdec : env.decodeImage (pyJoin IMAGE_DIR name) = some img)
    (hb : pyBaseId name = some bid)
    (hex : env.maskExists (pyJoin MASK_DIR ("mask_" ++ bid ++ ".png")) = true)
    (hm : env.decodeMask (pyJoin MASK_DIR ("mask_" ++ bid ++ ".png")) = some m) :
    writeImagePaths (processOneImage env total name c).1 =
      TRANSFORMATIONS.map (outImagePath name) ∧
    writeMaskPaths (processOneImage env total name c).1 =
      TRANSFORMATIONS.map (outMaskPath bid) ∧
    (writeImagePaths (processOneImage env total name c).1).length = 5 ∧
    (writeMaskPaths (processOneImage env total name c).1).length = 5 ∧
    (processOneImage env total name c).2 = .ok (c + 5) := by
  simp only [processOneImage, hdec, hb, hex, hm, if_true]
  refine ⟨runTransforms_fst_writeImagePaths env name bid img m total TRANSFORMATIONS c,
    runTransforms_fst_writeMaskPaths env name bid img m total TRANSFORMATIONS c, ?_, ?_, ?_⟩
  · rw [runTransforms_fst_writeImagePaths]
    rfl
  · rw [runTransforms_fst_writeMaskPaths]
    rfl
  · exact runTransforms_snd env name bid img m total TRANSFORMATIONS c

theorem C1_five_outputs_per_pair_witness :
    writeImagePaths (processOneImage envW 5 "image_1.jpg" 1).1 =
      TRANSFORMATIONS.map (outImagePath "image_1.jpg") ∧
    writeMaskPaths (processOneImage envW 5 "image_1.jpg" 1).1 =
      TRANSFORMATIONS.map (outMaskPath "1") ∧
    (writeImagePaths (processOneImage envW 5 "image_1.jpg" 1).1).length = 5 ∧
    (writeMaskPaths (processOneImage envW 5 "image_1.jpg" 1).1).length = 5 ∧
    (processOneImage envW 5 "image_1.jpg" 1).2 = .ok (1 + 5) :=
  C1_five_outputs_per_pair envW 5 1 "image_1.jpg" "1" [[(1, 2, 3)]] [[7]]
    (by decide) (by decide) (by decide) (by decide)

/-- C1 is false as stated: in `envC1`, `image_1.jpg` is discovered, decodes
successfully and its expected mask file `y/mask_1.png` exists, yet only one
(not 5) image output and zero (not 5) mask outputs are written — the mask
file fails to decode, the `None` mask passes through the first transform,
the first augmented image file is written, and `cv2.imwrite` of the `None`
mask aborts the run. -/
theorem C1_mask_undecodable_counterexample :
    image_files envC1 = ["image_1.jpg"] ∧
    (envC1.decodeImage (pyJoin IMAGE_DIR "image_1.jpg")).isSome = true ∧
    pyBaseId "image_1.jpg" = some "1" ∧
    envC1.maskExists (pyJoin MASK_DIR ("mask_" ++ "1" ++ ".png")) = true ∧
    (writeImagePaths (run envC1).1).length = 1 ∧
    writeMaskPaths (run envC1).1 = [] ∧
    (run envC1).2 = .fatal "cv2.error: imwrite mask is None" := by decide

/-- C2: for every one of the five transforms and every input image/mask pair
of equal pixel dimensions, the emitted mask has pixel dimensions (height and
width) identical to its paired emitted image. -/
theorem C2_mask_image_same_dims (t : Transform) (_ht : t ∈ TRANSFORMATIONS)
    (env : Env) (n : String) (img : Img) (m : Mask)
    (h : dims img = dims m) :
    dims (applyTransform env t n img m).1 =
      dims (applyTransform env t n img m).2 := by
  cases hg : t.isGeometric with
  | true => simp [applyTransform, hg, dims_warpImg, dims_warpMask, h]
  | false => simp [applyTransform, hg, dims_mapPix, h]

theorem C2_mask_image_same_dims_witness :
    dims (applyTransform envW (Transform.RandomBrightnessContrast 0.35 0.35 true 1.0)
      "image_1.jpg" [[(1, 2, 3)]] [[7]]).1 =
    dims (applyTransform envW (Transform.RandomBrightnessContrast 0.35 0.35 true 1.0)
      "image_1.jpg" [[(1, 2, 3)]] [[7]]).2 :=
  C2_mask_image_same_dims (Transform.RandomBrightnessContrast 0.35 0.35 true 1.0)
    (List.mem_cons_self _ _) envW "image_1.jpg" [[(1, 2, 3)]] [[7]] rfl

/-- C3: each of the four photometric transforms (`RandomBrightnessContrast`,
`Defocus`, `GlassBlur`, `ISONoise` — the non-geometric entries of the list)
returns the input mask byte-identical; only the geometric `ShiftScaleRotate`
(the fifth entry) modifies the mask, witnessed by an input it does change. -/
theorem C3_photometric_mask_passthrough :
    (∀ (env : Env) (n : String) (img : Img) (m : Mask),
      (applyTransform env TRANSFORMATIONS[0] n img m).2 = m ∧
      (applyTransform env TRANSFORMATIONS[1] n img m).2 = m ∧
      (applyTransform env TRANSFORMATIONS[2] n img m).2 = m ∧
      (applyTransform env TRANSFORMATIONS[3] n img m).2 = m) ∧
    TRANSFORMATIONS.map Transform.isGeometric = [false, false, false, false, true] ∧
    (∃ (env : Env) (n : String) (img : Img) (m : Mask),
      (applyTransform env TRANSFORMATIONS[4] n img m).2 ≠ m) :=
  ⟨fun _ _ _ _ => ⟨rfl, rfl, rfl, rfl⟩, rfl,
   ⟨env0, "image_1.jpg", [[(0, 0, 0)]], [[1]], by decide⟩⟩

/-- C4: exactly the two recoverable conditions are handled, and identically:
if the image fails to decode, or if the expected mask file does not exist, a
single warning line is printed, no other event (in particular no write) is
produced for that image, the counter is unchanged, and processing continues
with the next image. -/
theorem C4_two_recoverable_skips :
    (∀ (env : Env) (total : Nat) (name : String) (c : Nat),
      env.decodeImage (pyJoin IMAGE_DIR name) = none →
      processOneImage env total name c =
        ([.warning ("[WARNING] Failed to read image: " ++ name)], .ok c)) ∧
    (∀ (env : Env) (total : Nat) (name bid : String) (c : Nat) (img : Img),
      env.decodeImage (pyJoin IMAGE_DIR name) = some img →
      pyBaseId name = some bid →
      env.maskExists (pyJoin MASK_DIR ("mask_" ++ bid ++ ".png")) = false →
      processOneImage env total name c =
        ([.warning ("[WARNING] Mask not found: " ++
            pyJoin MASK_DIR ("mask_" ++ bid ++ ".png"))], .ok c)) ∧
    (∀ (env : Env) (total : Nat) (name : String) (rest : List String) (c : Nat),
      (processOneImage env total name c).2 = .ok c →
      runImages env total (name :: rest) c =
        ((processOneImage env total name c).1 ++ (runImages env total rest c).1,
         (runImages env total rest c).2)) := by
  refine ⟨?_, ?_, ?_⟩
  · intro env total name c h
    simp [processOneImage, h]
  · intro env total name bid c img h1 h2 h3
    simp [processOneImage, h1, h2, h3]
  · intro env total name rest c h
    cases hp : processOneImage env total name c with
    | mk evs res =>
      rw [hp] at h
      dsimp only at h
      subst h
      simp only [runImages, hp]

theorem C4_two_recoverable_skips_witness :
    processOneImage env0 0 "image_1.jpg" 1 =
      ([.warning ("[WARNING] Failed to read image: " ++ "image_1.jpg")], .ok 1) ∧
    processOneImage envMaskMissing 5 "image_1.jpg" 1 =
      ([.warning ("[WARNING] Mask not found: " ++
          pyJoin MASK_DIR ("mask_" ++ "1" ++ ".png"))], .ok 1) ∧
    runImages env0 0 ["image_1.jpg"] 1 =
      ((processOneImage env0 0 "image_1.jpg" 1).1 ++ (runImages env0 0 [] 1).1,
       (runImages env0 0 [] 1).2) :=
  ⟨C4_two_recoverable_skips.1 env0 0 "image_1.jpg" 1 (by decide),
   C4_two_recoverable_skips.2.1 envMaskMissing 5 "image_1.jpg" "1" 1
     [[(0, 0, 0)]] (by decide) (by decide) (by decide),
   C4_two_recoverable_skips.2.2 env0 0 "image_1.jpg" [] 1 (by decide)⟩

/-- C5 (amended): a discovered filename that ends with the image extension,
does not contain the underscore delimiter, and whose file decodes
successfully is not skipped: id extraction fails with an unhandled
`IndexError` that propagates and terminates the run, with no warning, no
outputs, and the remaining images unprocessed. (As stated the claim is false:
when such a file fails to decode it is skipped like any unreadable image,
see the counterexample.) -/
theorem C5_no_underscore_fatal (env : Env) (total : Nat) (name : String)
    (rest : List String) (c : Nat) (img : Img)
    (hu : '_' ∉ name.toList)
    (hdec : env.decodeImage (pyJoin IMAGE_DIR name) = some img) :
    runImages env total (name :: rest) c =
      ([], .fatal "IndexError: list index out of range") := by
  have hb := pyBaseId_no_underscore name hu
  simp [runImages, processOneImage, hdec, hb]

theorem C5_no_underscore_fatal_witness :
    runImages envC5W 5 ["image1.jpg"] 1 =
      ([], .fatal "IndexError: list index out of range") :=
  C5_no_underscore_fatal envC5W 5 "image1.jpg" [] 1 [[(0, 0, 0)]]
    (by decide) (by decide)

/-- C5 is false as stated: `image1.jpg` ends with the image extension and
contains no underscore, yet when its file fails to decode the run does not
terminate — the image is skipped with a warning (by the decode check, which
precedes id extraction) and the run completes normally. -/
theorem C5_undecodable_counterexample :
    pyLowerEndsWith "image1.jpg" IMAGE_EXTENSION = true ∧
    ('_' ∉ "image1.jpg".toList) ∧
    image_files envC5 = ["image1.jpg"] ∧
    run envC5 =
      ([.warning ("[WARNING] Failed to read image: " ++ "image1.jpg")],
       .completed) := by decide

/-- C6: the transform list is a fixed, ordered list of exactly five
configurations, applied in that same order to every image/mask pair, with
the geometric `ShiftScaleRotate` (shift limit 0.02, scale limit 0.2, rotate
limit 5 degrees, linear interpolation `cv2.INTER_LINEAR = 1`, constant
border `cv2.BORDER_CONSTANT = 0`, fill value 0 for image and mask) applied
last after the four photometric transforms. -/
theorem C6_fixed_transform_list :
    TRANSFORMATIONS.length = 5 ∧
    TRANSFORMATIONS.map Transform.name =
      ["RandomBrightnessContrast", "Defocus", "GlassBlur", "ISONoise",
       "ShiftScaleRotate"] ∧
    TRANSFORMATIONS.map Transform.isGeometric =
      [false, false, false, false, true] ∧
    TRANSFORMATIONS.getLast? =
      some (.ShiftScaleRotate 0.02 0.2 5 1 0 0 0 1.0) ∧
    (∀ (env : Env) (n b : String) (img : Img) (m : Mask) (total c : Nat),
      progressNames (runTransforms env n b img (some m) total TRANSFORMATIONS c).1 =
        ["RandomBrightnessContrast", "Defocus", "GlassBlur", "ISONoise",
         "ShiftScaleRotate"]) :=
  ⟨rfl, rfl, rfl, rfl, fun env n b img m total c =>
    (runTransforms_fst_progressNames env n b img m total TRANSFORMATIONS c).trans rfl⟩

/-- C7 (amended): each progress line `[k/total]` of any run shows as `total`
the up-front product `num_images × num_transforms` (computed over all
discovered images, before any skip-filtering), and the numerators `k` form
the consecutive sequence 1, 2, 3, ... — one progress line per completed
image+mask save, i.e. per written mask file; written image files are at
least as many, since an image write cut short by a fatal error at the mask
write gets no progress line (see the counterexample). -/
theorem C7_progress_lines (env : Env) :
    progressKs (run env).1 = List.range' 1 (progressKs (run env).1).length ∧
    progressTotals (run env).1 =
      List.replicate (progressKs (run env).1).length
        (num_images env * num_augs) ∧
    (writeMaskPaths (run env).1).length = (progressKs (run env).1).length ∧
    (progressKs (run env).1).length ≤ (writeImagePaths (run env).1).length := by
  obtain ⟨k, h1, h2, h3, h4⟩ :=
    runImages_shape env (total_outputs env) (image_files env) 1
  simp only [run] at h1 h2 h3 h4 ⊢
  rw [h1, h2, h3]
  simp only [List.length_range']
  exact ⟨trivial, rfl, trivial, h4⟩

/-- C7 is false as stated: in `envC1`'s run one image output file is
written, yet no progress line at all is emitted after that write — the run
dies at the following `cv2.imwrite` of the undecodable (`None`) mask before
the print of line 206 is reached. -/
theorem C7_write_without_progress_counterexample :
    (writeImagePaths (run envC1).1).length = 1 ∧
    progressKs (run envC1).1 = [] ∧
    progressTotals (run envC1).1 = [] := by decide

/-- C8: the written paths are a deterministic function of the discovered
filenames and which reads succeed: two runs over unchanged inputs (same
listing, same decode successes, same mask existence) write exactly the same
paths in the same order, whatever the pixel contents and the random samples
of the transforms — so a re-run overwrites the prior outputs and produces no
additional files. -/
theorem C8_paths_deterministic (env1 env2 : Env)
    (hlist : env1.listing = env2.listing)
    (hdec : ∀ p, (env1.decodeImage p).isSome = (env2.decodeImage p).isSome)
    (hex : ∀ p, env1.maskExists p = env2.maskExists p)
    (hmask : ∀ p, (env1.decodeMask p).isSome = (env2.decodeMask p).isSome) :
    writePaths (run env1).1 = writePaths (run env2).1 := by
  have hfiles : image_files env1 = image_files env2 := by
    simp [image_files, hlist]
  simp only [run, hfiles]
  exact runImages_paths_det env1 env2 (total_outputs env1) (total_outputs env2)
    hdec hex hmask (image_files env2) 1 1

theorem C8_paths_deterministic_witness :
    writePaths (run envC8a).1 = writePaths (run envC8b).1 :=
  C8_paths_deterministic envC8a envC8b rfl
    (fun p => by
      simp only [envC8a, envC8b]
      cases h : p == "X/image_1.jpg" <;> simp [h])
    (fun p => rfl)
    (fun p => by
      simp only [envC8a, envC8b]
      cases h : p == "y/mask_1.png" <;> simp [h])

/-- C9: when the expected mask file exists but does not decode (the
grayscale read returns `None`), the image is not skipped and no warning is
printed: the `None` mask is passed to the first transform — whose two output
directories have already been created — and the error resulting from the
`None` mask propagates fatally: the transform passes the `None` mask
through, the first augmented image file is written, and `cv2.imwrite` of
the `None` mask raises, terminating the run with no mask write, no progress
line, and the remaining images unprocessed. -/
theorem C9_mask_none_fatal (env : Env) (total : Nat) (name bid : String)
    (rest : List String) (c : Nat) (img : Img)
    (hdec : env.decodeImage (pyJoin IMAGE_DIR name) = some img)
    (hb : pyBaseId name = some bid)
    (hex : env.maskExists (pyJoin MASK_DIR ("mask_" ++ bid ++ ".png")) = true)
    (hm : env.decodeMask (pyJoin MASK_DIR ("mask_" ++ bid ++ ".png")) = none) :
    runImages env total (name :: rest) c =
      ([.mkdir (pyJoin OUT_IMAGE_ROOT "RandomBrightnessContrast"),
        .mkdir (pyJoin OUT_MASK_ROOT "RandomBrightnessContrast"),
        .writeImage
          (outImagePath name (.RandomBrightnessContrast 0.35 0.35 true 1.0))
          (applyTransformImage env
            (.RandomBrightnessContrast 0.35 0.35 true 1.0) name img)],
       .fatal "cv2.error: imwrite mask is None") := by
  simp only [runImages, processOneImage, hdec, hb, hex, hm, if_true,
    TRANSFORMATIONS, runTransforms_none_eq, Transform.name]

theorem C9_mask_none_fatal_witness :
    runImages envC1 5 ["image_1.jpg"] 1 =
      ([.mkdir (pyJoin OUT_IMAGE_ROOT "RandomBrightnessContrast"),
        .mkdir (pyJoin OUT_MASK_ROOT "RandomBrightnessContrast"),
        .writeImage
          (outImagePath "image_1.jpg" (.RandomBrightnessContrast 0.35 0.35 true 1.0))
          (applyTransformImage envC1
            (.RandomBrightnessContrast 0.35 0.35 true 1.0) "image_1.jpg"
            [[(0, 0, 0)]])],
       .fatal "cv2.error: imwrite mask is None") :=
  C9_mask_none_fatal envC1 5 "image_1.jpg" "1" [] 1 [[(0, 0, 0)]]
    (by decide) (by decide) (by decide) (by decide)

/-- C10: the derived id of a filename with more than one underscore is only
the segment between the first and second underscore, truncated at its first
dot: `image_1_copy.jpg` and `image_7.a_b.jpg` yield ids `1` and `7`; the
mask looked up for `image_1_copy.jpg` is `mask_1.png` — the same file as for
`image_1.jpg`, so its five mask output paths coincide with those of
`image_1.jpg` (each occurs twice in the run), while the image outputs keep
the distinct full stems. -/
theorem C10_multi_underscore_id :
    pyBaseId "image_1_copy.jpg" = some "1" ∧
    pyBaseId "image_7.a_b.jpg" = some "7" ∧
    pyBaseId "image_1.jpg" = some "1" ∧
    (writeMaskPaths (run envC10).1).count
      "augmented_y/RandomBrightnessContrast/mask_1-RandomBrightnessContrast.png" = 2 ∧
    "augmented_x/RandomBrightnessContrast/image_1-RandomBrightnessContrast.jpg" ∈
      writeImagePaths (run envC10).1 ∧
    "augmented_x/RandomBrightnessContrast/image_1_copy-RandomBrightnessContrast.jpg" ∈
      writeImagePaths (run envC10).1 := by decide

end SegAug
